import Mathlib

/-!
Verification of the cart/order/payment core of the online-cinema backend.

The definitions below are a shallow embedding of the repository's SQLAlchemy
models and of the CRUD / endpoint functions that the claims concern:

* `app/models/order.py`, `korbit_review/app/models/payment.py`,
  `korbit_review/app/models/cart.py` — the data model, embedded as Lean
  structures; the database is a record of lists of rows.
* `app/api/v1/endpoints/payment.py` — `stripe_webhook_endpoint`.
* `korbit_review/app/crud/order.py` — `create_order`, `order_refuse`.
* `korbit_review/app/crud/cart.py` — `cart_add_item`.
* `app/crud/payment.py` — `payment_detail_page`.

Monetary DECIMAL(10,2) columns are embedded as `Int` (cents).  `commit` is
durable: a rollback restores the most recently committed state, so stateful
functions return the persisted post-state alongside their result.
-/

namespace OnlineCinema

deriving instance DecidableEq for Except

/-- OrderStatusEnum from `app/models/order.py` lines 10-13. -/
inductive OrderStatusEnum
  | pending
  | paid
  | canceled
deriving DecidableEq, Repr

/-- PaymentStatusEnum from `korbit_review/app/models/payment.py` lines 10-13. -/
inductive PaymentStatusEnum
  | successful
  | canceled
  | refunded
deriving DecidableEq, Repr

/-- Movie row (`app/models/movie.py`): the columns the core uses. -/
structure Movie where
  id : Nat
  price : Int
deriving DecidableEq, Repr

/-- Cart row (`korbit_review/app/models/cart.py`). -/
structure Cart where
  id : Nat
  user_profile_id : Nat
deriving DecidableEq, Repr

/-- CartItem row (`korbit_review/app/models/cart.py`). -/
structure CartItem where
  id : Nat
  cart_id : Nat
  movie_id : Nat
deriving DecidableEq, Repr

/-- Order row (`app/models/order.py` lines 16-27). -/
structure Order where
  id : Nat
  user_profile_id : Nat
  status : OrderStatusEnum
  total_amount : Int
deriving DecidableEq, Repr

/-- OrderItem row (`app/models/order.py` lines 30-40); `order_id` carries
`ondelete="CASCADE"`. -/
structure OrderItem where
  id : Nat
  order_id : Nat
  movie_id : Nat
  price_at_order : Int
deriving DecidableEq, Repr

/-- Payment row (`korbit_review/app/models/payment.py` lines 16-29). -/
structure Payment where
  id : Nat
  user_profile_id : Nat
  order_id : Nat
  status : PaymentStatusEnum
  amount : Int
  external_payment_id : String
deriving DecidableEq, Repr

/-- PaymentItem row (`korbit_review/app/models/payment.py` lines 36-45). -/
structure PaymentItem where
  id : Nat
  payment_id : Nat
  order_item_id : Nat
  price_at_payment : Int
deriving DecidableEq, Repr

/-- The relational state: one list of rows per table, plus the shared
autoincrement counter used to mint fresh primary keys. -/
structure DB where
  movies : List Movie
  carts : List Cart
  cart_items : List CartItem
  orders : List Order
  order_items : List OrderItem
  payments : List Payment
  payment_items : List PaymentItem
  next_id : Nat
deriving DecidableEq, Repr

/-- The named exceptions of `app/utils/exceptions.py` that the embedded code
raises, plus the failure modes that are not named exceptions: the SQLAlchemy
`ArgumentError` raised when a relationship loader option is applied to a
column-only select, the `IntegrityError` raised when deleting a parent makes
the ORM null out a NOT NULL child foreign key, and an injected database
failure used to exercise rollback paths. -/
inductive CrudError
  | movieNotFound
  | userDontHavePermission
  | movieAlreadyIsPurchasedOrInCart
  | somethingWentWrong
  | orderDoesNotExist
  | paymentNotFound
  | argumentErrorLoaderOnColumnSelect
  | integrityErrorNotNull
  | simulatedDbFailure
deriving DecidableEq, Repr

/-- Lookup of a Movie row by primary key. -/
def findMovie (db : DB) (movie_id : Nat) : Option Movie :=
  db.movies.find? (fun m => m.id == movie_id)

/-- The current catalog price of a movie (`item.movie.price` after a
`joinedload` of the movie); 0 when the movie row is absent, in which case an
SQL join would instead have dropped the row — the sums the claims compare are
unaffected because every concrete input below has all movies present. -/
def moviePrice (db : DB) (movie_id : Nat) : Int :=
  ((findMovie db movie_id).map Movie.price).getD 0

/-- The three event-type strings recognized by `stripe_webhook_endpoint`
(`app/api/v1/endpoints/payment.py` lines 46-48), plus every other type. -/
inductive StripeEventType
  | checkoutSessionCompleted
  | paymentIntentPaymentFailed
  | chargeRefunded
  | other
deriving DecidableEq, Repr

/-- A verified Stripe event, as consumed by the webhook handler: its type,
its id (`event["id"]`, the external payment id), and the three metadata keys
echoed back from checkout-session creation. -/
structure StripeEvent where
  type : StripeEventType
  id : String
  meta_user_profile_id : Nat
  meta_order_id : Nat
  meta_total_amount : Int
deriving DecidableEq, Repr

/-- The `(Payment.status, Order.status)` pair that the three
`if event["type"] == ...` branches of the webhook handler
(`app/api/v1/endpoints/payment.py` lines 79-89) would assign; `none` for
every event type the handler does not recognize.  These branches are
unreachable: the query at lines 60-66 raises before them on every recognized
event (see `stripe_webhook_endpoint`). -/
def webhookStatuses : StripeEventType → Option (PaymentStatusEnum × OrderStatusEnum)
  | .checkoutSessionCompleted => some (.successful, .paid)
  | .paymentIntentPaymentFailed => some (.canceled, .canceled)
  | .chargeRefunded => some (.refunded, .canceled)
  | .other => none

/-- The membership test at lines 50-52 of the handler: the event type is one
of the three recognized strings, i.e. one whose `if/elif` status branch
exists. -/
def recognizedEventType (t : StripeEventType) : Bool :=
  (webhookStatuses t).isSome

/-- The metadata locals bound at lines 56-58 of `stripe_webhook_endpoint`:
`order_id` and `total_amount` come from their own metadata keys, but
`user_profile_id` is read from the `order_id` key — line 57 is
`user_profile_id = session["metadata"]["order_id"]`. -/
structure WebhookLocals where
  order_id : Nat
  user_profile_id : Nat
  total_amount : Int
deriving DecidableEq, Repr

/-- Transcription of lines 56-58 of `stripe_webhook_endpoint`. -/
def webhook_session_locals (event : StripeEvent) : WebhookLocals :=
  { order_id := event.meta_order_id
    user_profile_id := event.meta_order_id
    total_amount := event.meta_total_amount }

/-- Embedding of `stripe_webhook_endpoint` (`app/api/v1/endpoints/payment.py`
lines 26-102), after signature verification succeeded.

An unrecognized event type falls through the endpoint with no side effects
and is acknowledged.  For a recognized type the handler binds the metadata
locals (lines 56-58, `webhook_session_locals`) and then executes the query at
lines 60-66, whose `joinedload(OrderItem.movie)` option is applied to the
column-only `select(OrderItem.id)`: SQLAlchemy rejects the loader option with
`ArgumentError` at execution.  The handler therefore raises on every
recognized event — before the Order lookup, before `new_payment_obj` is
built, and before any commit — so no Payment or PaymentItem row is ever
inserted and the database is unchanged.  (Past that line the code would
still persist no Payment: `new_payment_obj` is never added to the session,
so the `db.refresh` at line 92 would raise on the transient instance; and
the missing None check before lines 81/85/89 would raise `AttributeError`
for an absent Order.)  There is no lookup of an existing Payment by
`external_payment_id` anywhere in the handler. -/
def stripe_webhook_endpoint (db : DB) (event : StripeEvent) :
    Except CrudError Unit × DB :=
  if recognizedEventType event.type then
    (.error .argumentErrorLoaderOnColumnSelect, db)
  else
    (.ok (), db)

/-- The cart items belonging to the cart(s) of a user profile:
`CartItem.cart.has(Cart.user_profile_id == user_profile.id)`. -/
def userCartItems (db : DB) (upid : Nat) : List CartItem :=
  db.cart_items.filter (fun ci =>
    db.carts.any (fun c => c.id == ci.cart_id && c.user_profile_id == upid))

/-- The `is_paid_by_order_subquery` of `create_order`
(`korbit_review/app/crud/order.py` lines 79-86): the movie appears in an
OrderItem whose Order belongs to this user and has status paid. -/
def is_paid_by_order (db : DB) (upid : Nat) (movie_id : Nat) : Bool :=
  db.order_items.any (fun oi =>
    oi.movie_id == movie_id &&
    db.orders.any (fun o =>
      o.id == oi.order_id && o.user_profile_id == upid &&
      o.status == OrderStatusEnum.paid))

/-- The `is_paid_by_payment_subquery` of `create_order`
(`korbit_review/app/crud/order.py` lines 88-97): the movie appears in an
OrderItem whose Order (inner join) is referenced by a Payment with status
successful; note the source applies no user filter here. -/
def is_paid_by_payment (db : DB) (movie_id : Nat) : Bool :=
  db.order_items.any (fun oi =>
    oi.movie_id == movie_id &&
    db.orders.any (fun o =>
      o.id == oi.order_id &&
      db.payments.any (fun p =>
        p.order_id == o.id && p.status == PaymentStatusEnum.successful)))

/-- Embedding of `create_order` (`korbit_review/app/crud/order.py`
lines 75-140).

`total_amount` is the sum of `Movie.price` over ALL cart items of the user's
cart (lines 99-105 — the query carries neither of the two not-yet-paid
subqueries), while the selected items (lines 106-116) are the cart items
filtered by both subqueries.  The Order row is committed on its own first
(lines 123-125); the OrderItems are inserted and committed afterwards
(lines 127-135).  `failAtItems` injects an exception during the OrderItem
insertion, which the source catches with `await db.rollback()` (lines
138-140); the rollback restores the last committed state, which already
holds the Order row. -/
def create_order (db : DB) (upid : Nat) (failAtItems : Bool) :
    Except CrudError Order × DB :=
  let total_amount : Int :=
    ((userCartItems db upid).map (fun ci => moviePrice db ci.movie_id)).sum
  let user_items := (userCartItems db upid).filter (fun ci =>
    !(is_paid_by_order db upid ci.movie_id) && !(is_paid_by_payment db ci.movie_id))
  let new_order : Order :=
    { id := db.next_id
      user_profile_id := upid
      status := .pending
      total_amount := total_amount }
  let db1 : DB := { db with orders := db.orders ++ [new_order], next_id := db.next_id + 1 }
  let order_items := user_items.enum.map (fun p =>
    { id := db1.next_id + p.1
      order_id := new_order.id
      movie_id := p.2.movie_id
      price_at_order := moviePrice db p.2.movie_id : OrderItem })
  if failAtItems then
    (.error .simulatedDbFailure, db1)
  else
    (.ok new_order,
      { db1 with
        order_items := db1.order_items ++ order_items
        next_id := db1.next_id + order_items.length })

/-- Embedding of `order_refuse` (`korbit_review/app/crud/order.py`
lines 161-182): resolve the Order by id and owner; raise
`OrderDoesNotExistError` when absent.  No status check is made before
deletion.  `db.delete` on the Order makes the ORM null out its children's
`order_id` first: `Order.order_items` carries no delete cascade and no
passive_deletes (`app/models/order.py` line 25), so the DDL-level
`ondelete="CASCADE"` never fires, and `OrderItem.order_id` is declared
`nullable=False` — for an Order that still has OrderItems the flush raises
`IntegrityError`, the except branch rolls back and re-raises, and nothing is
deleted.  An Order with no OrderItems is deleted regardless of status. -/
def order_refuse (db : DB) (upid : Nat) (order_id : Nat) :
    Except CrudError Unit × DB :=
  match db.orders.find? (fun o => o.id == order_id && o.user_profile_id == upid) with
  | none => (.error .orderDoesNotExist, db)
  | some _ =>
    if db.order_items.any (fun oi => oi.order_id == order_id) then
      (.error .integrityErrorNotNull, db)
    else
      (.ok (),
        { db with
          orders := db.orders.filter (fun o =>
            !(o.id == order_id && o.user_profile_id == upid)) })

/-- Embedding of `cart_add_item` (`korbit_review/app/crud/cart.py`
lines 16-87) on the base-role path: the acting user's group is `user`, so the
resolved cart is the acting user's own cart (lines 38-39).

The purchased-movies query (lines 51-74) selects `OrderItem.movie_id` for
OrderItems whose `order_id` is among the Orders that belong to the acting
user AND have status paid AND are referenced by a successful Payment of the
acting user — all three conditions are nested conjunctively in the source.
The stray `CartItem.cart.has(...)` clause (lines 70-72) references CartItem
without joining it, producing a cross join: the query returns rows only when
the cart owner has at least one CartItem.  The lazily created cart
(lines 31-35) is committed before the try block, so it survives the error
path's rollback. -/
def cart_add_item (db : DB) (upid : Nat) (movie_id : Nat) :
    Except CrudError Unit × DB :=
  match findMovie db movie_id with
  | none => (.error .movieNotFound, db)
  | some movie =>
    let lazily :=
      match db.carts.find? (fun c => c.user_profile_id == upid) with
      | some c => (db, c)
      | none =>
        let c : Cart := { id := db.next_id, user_profile_id := upid }
        ({ db with carts := db.carts ++ [c], next_id := db.next_id + 1 }, c)
    let db1 := lazily.1
    let cart := lazily.2
    let all_movies_in_users_cart :=
      (db1.cart_items.filter (fun ci => ci.cart_id == cart.id)).map CartItem.movie_id
    let all_purchased_movies_ids :=
      if db1.cart_items.any (fun ci =>
          db1.carts.any (fun c =>
            c.id == ci.cart_id && c.user_profile_id == cart.user_profile_id)) then
        (db1.order_items.filter (fun oi =>
          db1.orders.any (fun o =>
            o.id == oi.order_id && o.user_profile_id == upid &&
            o.status == OrderStatusEnum.paid &&
            db1.payments.any (fun p =>
              p.order_id == o.id && p.user_profile_id == upid &&
              p.status == PaymentStatusEnum.successful)))).map OrderItem.movie_id
      else []
    if all_movies_in_users_cart.contains movie.id
        || all_purchased_movies_ids.contains movie.id then
      (.error .movieAlreadyIsPurchasedOrInCart, db1)
    else
      (.ok (),
        { db1 with
          cart_items := db1.cart_items ++
            [{ id := db1.next_id, cart_id := cart.id, movie_id := movie.id }]
          next_id := db1.next_id + 1 })

/-- One column declaration of a table, recording whether it carries a UNIQUE
constraint (a primary key is unique) and whether it is nullable. -/
structure ColumnDef where
  name : String
  unique : Bool
  nullable : Bool
deriving DecidableEq, Repr

/-- The column declarations of the `payments` table, transcribed from
`korbit_review/app/models/payment.py` lines 19-25; `external_payment_id` is
declared `Column(String(400))`, with no `unique=True` and no table-level
UniqueConstraint. -/
def payments_table_columns : List ColumnDef :=
  [ { name := "id", unique := true, nullable := false },
    { name := "user_profile_id", unique := false, nullable := false },
    { name := "order_id", unique := false, nullable := false },
    { name := "created_at", unique := false, nullable := true },
    { name := "status", unique := false, nullable := true },
    { name := "amount", unique := false, nullable := true },
    { name := "external_payment_id", unique := false, nullable := true } ]

/-- Truth value of the guard operand in `if not Payment:`
(`app/crud/payment.py` line 62): the operand is the Payment class object
itself, not the fetched row, and a class object is always truthy in Python. -/
def payment_class_is_truthy : Bool := true

/-- Embedding of `payment_detail_page` (`app/crud/payment.py` lines 36-65):
fetch the Payment by id; when a row was found and the requester is not its
owner, raise `UserDontHavePermissionError` (lines 59-60, guarded by
`payment and ...`); then the not-found guard `if not Payment:` (lines 62-63)
tests the class itself; finally return the fetched value, which is `None`
when no row matched. -/
def payment_detail_page (db : DB) (upid : Nat) (payment_id : Nat) :
    Except CrudError (Option Payment) :=
  match db.payments.find? (fun p => p.id == payment_id) with
  | some p =>
    if upid != p.user_profile_id then .error .userDontHavePermission
    else if !payment_class_is_truthy then .error .paymentNotFound
    else .ok (some p)
  | none =>
    if !payment_class_is_truthy then .error .paymentNotFound
    else .ok none

/-! Concrete database states and events used to evaluate the embedded code. -/

/-- One movie (price 9.99, i.e. 999 cents), one pending order for it. -/
def dbC1 : DB :=
  { movies := [{ id := 1, price := 999 }]
    carts := []
    cart_items := []
    orders := [{ id := 1, user_profile_id := 1, status := .pending, total_amount := 999 }]
    order_items := [{ id := 2, order_id := 1, movie_id := 1, price_at_order := 999 }]
    payments := []
    payment_items := []
    next_id := 10 }

/-- A checkout-completed settlement for `dbC1`'s order. -/
def eC1 : StripeEvent :=
  { type := .checkoutSessionCompleted, id := "evt_1"
    meta_user_profile_id := 1, meta_order_id := 1, meta_total_amount := 999 }

/-- A cart holding one not-yet-purchased movie (500) and one movie (700)
already covered by a paid Order of the same user. -/
def dbC2 : DB :=
  { movies := [{ id := 1, price := 500 }, { id := 2, price := 700 }]
    carts := [{ id := 10, user_profile_id := 1 }]
    cart_items := [{ id := 11, cart_id := 10, movie_id := 1 },
                   { id := 12, cart_id := 10, movie_id := 2 }]
    orders := [{ id := 20, user_profile_id := 1, status := .paid, total_amount := 700 }]
    order_items := [{ id := 21, order_id := 20, movie_id := 2, price_at_order := 700 }]
    payments := []
    payment_items := []
    next_id := 30 }

/-- A cart with one item, used with an injected OrderItem-insertion failure. -/
def dbC3 : DB :=
  { movies := [{ id := 1, price := 500 }]
    carts := [{ id := 10, user_profile_id := 1 }]
    cart_items := [{ id := 11, cart_id := 10, movie_id := 1 }]
    orders := []
    order_items := []
    payments := []
    payment_items := []
    next_id := 20 }

/-- Movie 5 sits in a paid Order of user 1, but no successful Payment row
exists for that Order; the user's cart holds an unrelated movie 99. -/
def dbC4 : DB :=
  { movies := [{ id := 5, price := 500 }, { id := 99, price := 100 }]
    carts := [{ id := 10, user_profile_id := 1 }]
    cart_items := [{ id := 11, cart_id := 10, movie_id := 99 }]
    orders := [{ id := 20, user_profile_id := 1, status := .paid, total_amount := 500 }]
    order_items := [{ id := 21, order_id := 20, movie_id := 5, price_at_order := 500 }]
    payments := []
    payment_items := []
    next_id := 30 }

/-- A pending order awaiting settlement, hit twice by the same event id. -/
def dbC5 : DB :=
  { movies := [{ id := 1, price := 500 }]
    carts := []
    cart_items := []
    orders := [{ id := 1, user_profile_id := 1, status := .pending, total_amount := 500 }]
    order_items := [{ id := 2, order_id := 1, movie_id := 1, price_at_order := 500 }]
    payments := []
    payment_items := []
    next_id := 40 }

/-- Two concurrent-in-effect deliveries of the same external payment id. -/
def eC5 : StripeEvent :=
  { type := .checkoutSessionCompleted, id := "evt_dup"
    meta_user_profile_id := 1, meta_order_id := 1, meta_total_amount := 500 }

/-- A pending Order 1 still holding an OrderItem, and a paid, item-less
Order 2, both owned by user 1. -/
def dbC6 : DB :=
  { movies := [{ id := 7, price := 500 }]
    carts := []
    cart_items := []
    orders := [{ id := 1, user_profile_id := 1, status := .pending, total_amount := 500 },
               { id := 2, user_profile_id := 1, status := .paid, total_amount := 300 }]
    order_items := [{ id := 3, order_id := 1, movie_id := 7, price_at_order := 500 }]
    payments := []
    payment_items := []
    next_id := 10 }

/-- Order 3 belongs to user profile 10; the metadata carries both ids. -/
def dbC7 : DB :=
  { movies := []
    carts := []
    cart_items := []
    orders := [{ id := 3, user_profile_id := 10, status := .pending, total_amount := 500 }]
    order_items := []
    payments := []
    payment_items := []
    next_id := 20 }

/-- Settlement whose metadata names user profile 10 and order 3. -/
def eC7 : StripeEvent :=
  { type := .checkoutSessionCompleted, id := "evt_7"
    meta_user_profile_id := 10, meta_order_id := 3, meta_total_amount := 500 }

/-- A database holding only order 1; event metadata will name order 999. -/
def dbC8 : DB :=
  { movies := []
    carts := []
    cart_items := []
    orders := [{ id := 1, user_profile_id := 1, status := .pending, total_amount := 500 }]
    order_items := []
    payments := []
    payment_items := []
    next_id := 10 }

/-- A recognized settlement event naming an order id with no Order row. -/
def eC8 : StripeEvent :=
  { type := .checkoutSessionCompleted, id := "evt_8"
    meta_user_profile_id := 1, meta_order_id := 999, meta_total_amount := 500 }

/-- An existing pending order awaiting settlement. -/
def dbC9 : DB :=
  { movies := []
    carts := []
    cart_items := []
    orders := [{ id := 1, user_profile_id := 1, status := .pending, total_amount := 999 }]
    order_items := []
    payments := []
    payment_items := []
    next_id := 10 }

/-- A checkout-completed event for `dbC9`'s order. -/
def eC9 : StripeEvent :=
  { type := .checkoutSessionCompleted, id := "evt_9"
    meta_user_profile_id := 1, meta_order_id := 1, meta_total_amount := 999 }

/-- A database with no Payment rows at all, for the detail-page witness. -/
def dbC10 : DB :=
  { movies := []
    carts := []
    cart_items := []
    orders := []
    order_items := []
    payments := []
    payment_items := []
    next_id := 1 }

/-! Claim theorems. -/

/-- C1 (code bug): webhook replay is not idempotent in the claimed sense and
produces no ledger at all.  The handler contains no lookup of an existing
Payment by `external_payment_id`; each recognized delivery raises the
loader-option `ArgumentError` before any mutation, so after two deliveries
of the same payload there are zero Payment rows — not exactly one — and zero
PaymentItems, and every delivery is answered with an error rather than an
acknowledged no-op. -/
theorem webhook_replay_produces_no_payment_rows :
    stripe_webhook_endpoint dbC1 eC1 = (.error .argumentErrorLoaderOnColumnSelect, dbC1) ∧
    ((stripe_webhook_endpoint (stripe_webhook_endpoint dbC1 eC1).2 eC1).2.payments.filter
      (fun p => p.external_payment_id == "evt_1")).length ≠ 1 ∧
    (stripe_webhook_endpoint (stripe_webhook_endpoint dbC1 eC1).2 eC1).2.payment_items = [] := by
  decide

/-- C2 (code bug): `create_order` persists `total_amount = 1200`, the sum of
ALL cart items' prices (500 + 700), while the Order's own items sum to 500 —
the already-purchased movie is excluded from the items but not from the
total.  (The claim's checkout-session half concerns the recompute at
payment.py lines 221-226, which is unreachable: the statement built at lines
176-181 accesses `PaymentItem.order_item.movie_id` on the relationship class
attribute and raises `AttributeError`, and line 212 iterates the non-iterable
Order, so every `stripe_checkout_session` call crashes before the recompute.) -/
theorem create_order_total_amount_mismatch :
    (create_order dbC2 1 false).1 =
      .ok { id := 30, user_profile_id := 1, status := .pending, total_amount := 1200 } ∧
    (((create_order dbC2 1 false).2.order_items.filter
        (fun oi => oi.order_id == 30)).map OrderItem.price_at_order).sum = 500 := by
  decide

/-- C3 (code bug): `create_order` commits the Order row on its own before
inserting the OrderItems; when the OrderItem insertion fails, the rollback
restores the state of the first commit, which still holds the Order row with
no items. -/
theorem create_order_not_atomic_order_row_persists :
    (create_order dbC3 1 true).1 = .error .simulatedDbFailure ∧
    (create_order dbC3 1 true).2.orders =
      [{ id := 20, user_profile_id := 1, status := .pending, total_amount := 500 }] ∧
    (create_order dbC3 1 true).2.order_items = [] := by
  decide

/-- C4 (code bug): movie 5 is covered by an Order of user 1 with status paid,
but `cart_add_item`'s purchased-check requires a successful Payment as well
(conjunctively, not as a union), so the add succeeds and inserts a CartItem
instead of raising the already-purchased-or-in-cart error. -/
theorem cart_add_item_accepts_paid_order_movie :
    (cart_add_item dbC4 1 5).1 = .ok () ∧
    (cart_add_item dbC4 1 5).2.cart_items =
      [{ id := 11, cart_id := 10, movie_id := 99 },
       { id := 30, cart_id := 10, movie_id := 5 }] := by
  decide

/-- C5 (code bug): the `payments` schema declares no uniqueness constraint on
`external_payment_id`, and the webhook handler has neither a pre-check nor an
IntegrityError handler — in fact no Payment insert ever executes, because the
loader-option `ArgumentError` fires first on every recognized delivery, so
the claimed constraint-arbitration path does not exist at all. -/
theorem external_payment_id_has_no_unique_constraint :
    payments_table_columns.find? (fun c => c.name == "external_payment_id") =
      some { name := "external_payment_id", unique := false, nullable := true } ∧
    stripe_webhook_endpoint dbC5 eC5 = (.error .argumentErrorLoaderOnColumnSelect, dbC5) ∧
    (stripe_webhook_endpoint (stripe_webhook_endpoint dbC5 eC5).2 eC5).2.payments = [] := by
  decide

/-- C6 (code bug): the not-found half holds, but refusal respects no status
guard and the claimed cascading delete does not happen: a pending Order that
still has an OrderItem is not deleted (the ORM nulls the NOT NULL child
foreign key and `IntegrityError` aborts the flush), while a paid, item-less
Order is deleted. -/
theorem order_refuse_ignores_status_and_fails_on_items :
    (order_refuse dbC6 1 99).1 = .error .orderDoesNotExist ∧
    order_refuse dbC6 1 1 = (.error .integrityErrorNotNull, dbC6) ∧
    (order_refuse dbC6 1 2).1 = .ok () ∧
    (order_refuse dbC6 1 2).2.orders =
      [{ id := 1, user_profile_id := 1, status := .pending, total_amount := 500 }] ∧
    (order_refuse dbC6 1 2).2.order_items = dbC6.order_items := by
  decide

/-- C7 (code bug): line 57 binds the handler's `user_profile_id` local from
the `order_id` metadata key (value 3), not from the `user_profile_id` key
(value 10); and no Payment row is ever created to carry either value, since
the recognized-event path raises before any insert. -/
theorem webhook_binds_user_profile_id_from_order_id_key :
    webhook_session_locals eC7 =
      { order_id := 3, user_profile_id := 3, total_amount := 500 } ∧
    eC7.meta_user_profile_id = 10 ∧
    (stripe_webhook_endpoint dbC7 eC7).2.payments = [] := by
  decide

/-- C8 (code bug): a recognized event naming an absent order makes the
handler raise the loader-option `ArgumentError` (an unhandled 500) before
the Order is even looked up — not the named `OrderDoesNotExistError`; no
Payment or Order mutation is persisted. -/
theorem webhook_missing_order_raises_argument_error :
    stripe_webhook_endpoint dbC8 eC8 = (.error .argumentErrorLoaderOnColumnSelect, dbC8) ∧
    CrudError.argumentErrorLoaderOnColumnSelect ≠ CrudError.orderDoesNotExist := by
  decide

/-- C9 (code bug): the status mapping is never applied.  The `if/elif`
branches at lines 79-89 textually carry exactly the claimed mapping (see
`webhookStatuses`), but every recognized delivery raises the loader-option
`ArgumentError` before reaching them: for a checkout-completed event on an
existing pending Order, the Order stays pending and no Payment row with any
status exists afterwards. -/
theorem webhook_never_applies_status_mapping :
    stripe_webhook_endpoint dbC9 eC9 = (.error .argumentErrorLoaderOnColumnSelect, dbC9) ∧
    (stripe_webhook_endpoint dbC9 eC9).2.orders =
      [{ id := 1, user_profile_id := 1, status := .pending, total_amount := 999 }] ∧
    (stripe_webhook_endpoint dbC9 eC9).2.payments = [] := by
  decide

/-- C10 (confirmed): when no Payment row matches, `payment_detail_page`
returns `None` rather than raising; the `PaymentNotFoundError` branch can
never fire (the guard tests the truthiness of the Payment class itself); and
the permission error can only arise when a Payment row was found. -/
theorem payment_detail_page_not_found_behavior (db : DB) (upid payment_id : Nat) :
    ((∀ p ∈ db.payments, p.id ≠ payment_id) →
      payment_detail_page db upid payment_id = .ok none) ∧
    payment_detail_page db upid payment_id ≠ .error .paymentNotFound ∧
    (payment_detail_page db upid payment_id = .error .userDontHavePermission →
      ∃ p ∈ db.payments, p.id = payment_id) := by
  refine ⟨?_, ?_, ?_⟩
  · intro habs
    have hnone : db.payments.find? (fun p => p.id == payment_id) = none := by
      rw [List.find?_eq_none]
      intro p hp
      simpa using habs p hp
    simp [payment_detail_page, hnone, payment_class_is_truthy]
  · cases hf : db.payments.find? (fun p => p.id == payment_id) with
    | none => simp [payment_detail_page, hf, payment_class_is_truthy]
    | some p =>
      by_cases h : upid = p.user_profile_id <;>
        simp [payment_detail_page, hf, payment_class_is_truthy, h]
  · intro hperm
    cases hf : db.payments.find? (fun p => p.id == payment_id) with
    | none =>
      have hok : payment_detail_page db upid payment_id = .ok none := by
        simp [payment_detail_page, hf, payment_class_is_truthy]
      rw [hok] at hperm
      exact absurd hperm (by simp)
    | some p =>
      exact ⟨p, List.mem_of_find?_eq_some hf, by simpa using List.find?_some hf⟩

/-- Witness for C10 at a concrete database holding no payments. -/
theorem payment_detail_page_not_found_behavior_witness :
    (∀ p ∈ dbC10.payments, p.id ≠ 1) ∧
    payment_detail_page dbC10 7 1 = .ok none ∧
    payment_detail_page dbC10 7 1 ≠ .error .paymentNotFound ∧
    (payment_detail_page dbC10 7 1 = .error .userDontHavePermission →
      ∃ p ∈ dbC10.payments, p.id = 1) :=
  ⟨by decide,
    (payment_detail_page_not_found_behavior dbC10 7 1).1 (by decide),
    (payment_detail_page_not_found_behavior dbC10 7 1).2.1,
    (payment_detail_page_not_found_behavior dbC10 7 1).2.2⟩

end OnlineCinema
